import Mathlib

/-!
Wi-Fi provisioner: credential collection and the apply step.

A shallow embedding of `main.go`.  The process is followed from the moment
`adapter.AddService` has registered the two callbacks (line 85), so that writes can arrive
both before and after the main goroutine parks on `<-credentialsReceived` (line 92): the
package-level variables
`receivedSSID`, `receivedPassword` and the unbuffered channel `credentialsReceived` become
fields of `State`; the two `WriteEvent` closures, `checkCredentialsComplete`,
`configureWiFi` and `must` become functions; what the Bluetooth stack and `os/exec` answer
is a parameter (`Env`).  Log output is not modelled.
-/

namespace WifiProvisioner

/-! ## Go values -/

/-- One byte. -/
abbrev Byte := UInt8

/-- A Go `[]byte`.  `none` is the nil slice, `some []` an empty non-nil slice. -/
abbrev Bytes := Option (List Byte)

/-- A Go `string`: an immutable sequence of bytes. -/
abbrev GoString := List Byte

/-- Go's builtin `len` on a `[]byte`: the nil slice has length 0. -/
def len : Bytes → Nat
  | none => 0
  | some bs => bs.length

/-- The conversion `string(b)` of a `[]byte`: the same bytes, nil giving the empty string. -/
def string : Bytes → GoString
  | none => []
  | some bs => bs

/-- A string literal of the source, as the bytes of its UTF-8 encoding. -/
def lit (s : String) : GoString := s.toUTF8.data.toList

/-- A Go `error` value: one produced outside the program (by the Bluetooth stack or by
`os/exec`), or one built by `fmt.Errorf` with the verb `%w`. -/
inductive GoError where
  | external (msg : GoString)
  | wrapError (msg : GoString) (err : GoError)
  deriving DecidableEq, Repr

/-- The method `Error()`. -/
def GoError.Error : GoError → GoString
  | .external msg => msg
  | .wrapError msg _ => msg

/-- The method `Unwrap()` as `errors.Unwrap` sees it. -/
def GoError.Unwrap : GoError → Option GoError
  | .external _ => none
  | .wrapError _ err => some err

/-- An `exec.Cmd`: the program name and the argument vector, `Args[0]` being the name. -/
structure Cmd where
  Path : GoString
  Args : List GoString
  deriving DecidableEq, Repr

/-- The constructor `exec.Command(name, arg...)`. -/
def exec.Command (name : GoString) (arg : List GoString) : Cmd :=
  { Path := name, Args := name :: arg }

/-- A `bluetooth.Connection` handle. -/
abbrev Connection := Nat

/-- What the outside world answers: the results of `adv.Start()` and
`adv.Stop()` and, for each command, the
result `(output, err)` of `cmd.CombinedOutput()`. -/
structure Env where
  advStart : Option GoError
  advStop : Option GoError
  CombinedOutput : Cmd → Bytes × Option GoError

/-! ## Constants (lines 13-17) -/

def serviceUUIDString : String := "A0A8E453-562A-49A3-A2E4-29A8E88B0E9B"

def ssidCharacteristicUUIDString : String := "B1B0AC35-A253-4258-A5A5-A2A6A928B03B"

def passwordCharacteristicUUIDString : String := "C2C1BD48-B363-4369-B2B9-B3B8B5B6B4B3"

/-! ## Process state -/

/-- Where the main goroutine is. -/
inductive Phase where
  /-- The service is registered (line 85); lines 87-92 have not run yet, so the main
  goroutine is not yet parked on the channel. -/
  | starting
  /-- Parked in `<-credentialsReceived` (line 92). -/
  | waiting
  /-- The receive has completed; lines 94-101 have not run yet. -/
  | woken
  /-- The function `main` returned after `configureWiFi` succeeded. -/
  | done
  /-- The call `log.Fatalf` of line 103 ended the process. -/
  | fatal (err : GoError)
  /-- A `must` panicked with this message. -/
  | panicked (msg : GoString)
  deriving DecidableEq, Repr

/-- The process has ended: no goroutine runs any more. -/
def Phase.exited : Phase → Bool
  | .starting => false
  | .waiting => false
  | .woken => false
  | .done => true
  | .fatal _ => true
  | .panicked _ => true

/-- The package-level variables and the main goroutine, with three history fields:
`delivered` counts the values received from `credentialsReceived`, `calls` lists the
argument pairs of the calls of `configureWiFi`, `executed` lists the commands on which
`CombinedOutput` was called. -/
structure State where
  receivedSSID : Bytes
  receivedPassword : Bytes
  phase : Phase
  delivered : Nat
  calls : List (GoString × GoString)
  executed : List Cmd
  deriving DecidableEq, Repr

/-- The main goroutine has not yet received from the channel and may still do so. -/
def Phase.canReceive : Phase → Bool
  | .starting => true
  | .waiting => true
  | _ => false

/-- The process when `adapter.AddService` has returned: both variables are still nil, the
callbacks are registered and the main goroutine has not yet reached the receive. -/
def init : State :=
  { receivedSSID := none, receivedPassword := none, phase := .starting,
    delivered := 0, calls := [], executed := [] }

/-- The process when the main goroutine has parked on the channel before any write was
delivered: the empty store with the coordinator waiting. -/
def parked : State :=
  { receivedSSID := none, receivedPassword := none, phase := .waiting,
    delivered := 0, calls := [], executed := [] }

/-! ## The functions of `main.go` -/

/-- The condition of line 114: `len(receivedSSID) > 0 && len(receivedPassword) > 0`. -/
def credentialsComplete (s : State) : Bool :=
  decide (len s.receivedSSID > 0) && decide (len s.receivedPassword > 0)

/-- The send case `credentialsReceived <- true` of the `select`: on an unbuffered channel
it can proceed only when a receiver is parked, and the receiver then resumes. -/
def trySend (s : State) : Option State :=
  match s.phase with
  | .waiting => some { s with phase := .woken, delivered := s.delivered + 1 }
  | _ => none

/-- The function `checkCredentialsComplete` (lines 113-121): when both variables are
non-empty, a `select` with the send case and an empty `default`. -/
def checkCredentialsComplete (s : State) : State :=
  if credentialsComplete s then
    match trySend s with
    | some s' => s'
    | none => s
  else s

/-- The `WriteEvent` closure of the SSID characteristic (lines 66-70). -/
def ssidWriteEvent (_client : Connection) (_offset : Int) (value : Bytes) (s : State) : State :=
  checkCredentialsComplete { s with receivedSSID := value }

/-- The `WriteEvent` closure of the password characteristic (lines 78-82). -/
def passwordWriteEvent (_client : Connection) (_offset : Int) (value : Bytes) (s : State) :
    State :=
  checkCredentialsComplete { s with receivedPassword := value }

/-- A `bluetooth.CharacteristicConfig`, reduced to its identifier and its callback. -/
structure CharacteristicConfig where
  UUID : String
  WriteEvent : Connection → Int → Bytes → State → State

/-- The characteristics of the service registered by `adapter.AddService` (lines 59-84). -/
def characteristics : List CharacteristicConfig :=
  [ { UUID := ssidCharacteristicUUIDString, WriteEvent := ssidWriteEvent },
    { UUID := passwordCharacteristicUUIDString, WriteEvent := passwordWriteEvent } ]

/-- The error built on line 137:
`fmt.Errorf("nmcli command failed: %s\nError: %w", string(output), err)`. -/
def nmcliError (output : Bytes) (err : GoError) : GoError :=
  .wrapError (lit "nmcli command failed: " ++ string output ++ lit "\nError: " ++ err.Error) err

/-- The function `configureWiFi` (lines 124-142).  Returns the error (`none` is nil)
together with the commands on which it called `CombinedOutput`. -/
def configureWiFi (CombinedOutput : Cmd → Bytes × Option GoError) (ssid password : GoString) :
    Option GoError × List Cmd :=
  let cmd := exec.Command (lit "nmcli")
    [lit "device", lit "wifi", lit "connect", ssid, lit "password", password]
  match CombinedOutput cmd with
  | (output, some err) => (some (nmcliError output err), [cmd])
  | (_, none) => (none, [cmd])

/-- The helper `must` (lines 145-149): the panic message, or `none` when it returns. -/
def must (action : GoString) (err : Option GoError) : Option GoString :=
  match err with
  | some e => some (lit "failed to " ++ action ++ lit ": " ++ e.Error)
  | none => none

/-- The main goroutine runs as far as it can (lines 87-109): before the receive it starts
the advertisement and parks on the channel; parked on the channel it stays parked; once
woken it stops the advertisement, calls `configureWiFi` on the two variables as they are
then, and ends. -/
def mainResume (env : Env) (s : State) : State :=
  match s.phase with
  | .starting =>
    match must (lit "start advertising") env.advStart with
    | some msg => { s with phase := .panicked msg }
    | none => { s with phase := .waiting }
  | .woken =>
    match must (lit "stop advertising") env.advStop with
    | some msg => { s with phase := .panicked msg }
    | none =>
      let ssid := string s.receivedSSID
      let password := string s.receivedPassword
      match configureWiFi env.CombinedOutput ssid password with
      | (some err, ran) =>
        { s with phase := .fatal err, calls := s.calls ++ [(ssid, password)],
                 executed := s.executed ++ ran }
      | (none, ran) =>
        { s with phase := .done, calls := s.calls ++ [(ssid, password)],
                 executed := s.executed ++ ran }
  | _ => s

/-! ## The run of the process -/

/-- The Bluetooth stack delivers a write to the characteristic with this identifier: the
callback registered under it is called; a write to an unknown identifier reaches none. -/
def writeCharacteristic (uuid : String) (client : Connection) (offset : Int) (value : Bytes)
    (s : State) : State :=
  match characteristics.find? (fun c => c.UUID == uuid) with
  | some c => c.WriteEvent client offset value s
  | none => s

/-- What can happen next: a central writes a characteristic, or the main goroutine is
scheduled. -/
inductive Event where
  | write (uuid : String) (client : Connection) (offset : Int) (value : Bytes)
  | mainRuns
  deriving DecidableEq, Repr

/-- One event.  Nothing happens in a process that has ended. -/
def step (env : Env) (s : State) (e : Event) : State :=
  if s.phase.exited then s
  else
    match e with
    | .write uuid client offset value => writeCharacteristic uuid client offset value s
    | .mainRuns => mainResume env s

/-- A sequence of events, from left to right. -/
def run (env : Env) (evs : List Event) (s : State) : State :=
  evs.foldl (step env) s

/-! ## Sample environments and payloads -/

/-- Starting and stopping the advertisement and `nmcli` all succeed. -/
def envOk : Env :=
  { advStart := none, advStop := none, CombinedOutput := fun _ => (some (lit "Device activated."), none) }

/-- The command `nmcli` fails with the diagnostic text of scenario 3. -/
def envSecrets : Env :=
  { advStart := none, advStop := none,
    CombinedOutput := fun _ =>
      (some (lit "Error: Secrets were required"), some (.external (lit "exit status 4"))) }

/-- Stopping the advertisement fails. -/
def envStopFails : Env :=
  { advStart := none, advStop := some (.external (lit "not advertising")),
    CombinedOutput := fun _ => (some [], none) }

def homeNet : Bytes := some (lit "HomeNet")

def s3cr3t : Bytes := some (lit "s3cr3t!")

/-! ## Basic facts about the check and the two callbacks -/

theorem len_pos_iff (b : Bytes) : 0 < len b ↔ ∃ bs, b = some bs ∧ bs ≠ [] := by
  cases b with
  | none => simp [len]
  | some bs => cases bs <;> simp [len]

theorem credentialsComplete_iff (s : State) :
    credentialsComplete s = true ↔ 0 < len s.receivedSSID ∧ 0 < len s.receivedPassword := by
  simp [credentialsComplete]

theorem check_receivedSSID (s : State) :
    (checkCredentialsComplete s).receivedSSID = s.receivedSSID := by
  unfold checkCredentialsComplete trySend
  split
  · cases s.phase <;> rfl
  · rfl

theorem check_receivedPassword (s : State) :
    (checkCredentialsComplete s).receivedPassword = s.receivedPassword := by
  unfold checkCredentialsComplete trySend
  split
  · cases s.phase <;> rfl
  · rfl

theorem check_calls (s : State) : (checkCredentialsComplete s).calls = s.calls := by
  unfold checkCredentialsComplete trySend
  split
  · cases s.phase <;> rfl
  · rfl

theorem check_of_not_complete (s : State) (h : credentialsComplete s = false) :
    checkCredentialsComplete s = s := by
  simp [checkCredentialsComplete, h]

theorem check_of_not_waiting (s : State) (h : s.phase ≠ .waiting) :
    checkCredentialsComplete s = s := by
  unfold checkCredentialsComplete trySend
  split
  · cases hp : s.phase <;> simp_all
  · rfl

theorem check_of_complete_waiting (s : State) (hc : credentialsComplete s = true)
    (hw : s.phase = .waiting) :
    checkCredentialsComplete s = { s with phase := .woken, delivered := s.delivered + 1 } := by
  simp [checkCredentialsComplete, trySend, hc, hw]

theorem credentialsComplete_check (s : State) :
    credentialsComplete (checkCredentialsComplete s) = credentialsComplete s := by
  simp [credentialsComplete, check_receivedSSID, check_receivedPassword]

theorem writeCharacteristic_ssid (client : Connection) (offset : Int) (value : Bytes)
    (s : State) :
    writeCharacteristic ssidCharacteristicUUIDString client offset value s
      = ssidWriteEvent client offset value s := by
  have h : characteristics.find? (fun c => c.UUID == ssidCharacteristicUUIDString)
      = some { UUID := ssidCharacteristicUUIDString, WriteEvent := ssidWriteEvent } := by
    simp [characteristics, List.find?, ssidCharacteristicUUIDString]
  simp [writeCharacteristic, h]

theorem writeCharacteristic_password (client : Connection) (offset : Int) (value : Bytes)
    (s : State) :
    writeCharacteristic passwordCharacteristicUUIDString client offset value s
      = passwordWriteEvent client offset value s := by
  have h : characteristics.find? (fun c => c.UUID == passwordCharacteristicUUIDString)
      = some { UUID := passwordCharacteristicUUIDString, WriteEvent := passwordWriteEvent } := by
    simp [characteristics, List.find?, ssidCharacteristicUUIDString,
      passwordCharacteristicUUIDString]
  simp [writeCharacteristic, h]

theorem writeCharacteristic_cases (uuid : String) (client : Connection) (offset : Int)
    (value : Bytes) (s : State) :
    (uuid = ssidCharacteristicUUIDString ∧
        writeCharacteristic uuid client offset value s = ssidWriteEvent client offset value s) ∨
    (uuid = passwordCharacteristicUUIDString ∧
        writeCharacteristic uuid client offset value s
          = passwordWriteEvent client offset value s) ∨
    (uuid ≠ ssidCharacteristicUUIDString ∧ uuid ≠ passwordCharacteristicUUIDString ∧
        writeCharacteristic uuid client offset value s = s) := by
  by_cases h1 : uuid = ssidCharacteristicUUIDString
  · left; subst h1; exact ⟨rfl, writeCharacteristic_ssid _ _ _ _⟩
  · by_cases h2 : uuid = passwordCharacteristicUUIDString
    · right; left; subst h2; exact ⟨rfl, writeCharacteristic_password _ _ _ _⟩
    · right; right
      refine ⟨h1, h2, ?_⟩
      have h1' : (ssidCharacteristicUUIDString == uuid) = false :=
        beq_eq_false_iff_ne.mpr (fun h => h1 h.symm)
      have h2' : (passwordCharacteristicUUIDString == uuid) = false :=
        beq_eq_false_iff_ne.mpr (fun h => h2 h.symm)
      simp only [writeCharacteristic, characteristics, List.find?, h1', h2']

theorem ssidWriteEvent_receivedSSID (client : Connection) (offset : Int) (value : Bytes)
    (s : State) : (ssidWriteEvent client offset value s).receivedSSID = value := by
  simp [ssidWriteEvent, check_receivedSSID]

theorem ssidWriteEvent_receivedPassword (client : Connection) (offset : Int) (value : Bytes)
    (s : State) :
    (ssidWriteEvent client offset value s).receivedPassword = s.receivedPassword := by
  simp [ssidWriteEvent, check_receivedPassword]

theorem ssidWriteEvent_calls (client : Connection) (offset : Int) (value : Bytes)
    (s : State) : (ssidWriteEvent client offset value s).calls = s.calls := by
  simp [ssidWriteEvent, check_calls]

theorem passwordWriteEvent_receivedPassword (client : Connection) (offset : Int)
    (value : Bytes) (s : State) :
    (passwordWriteEvent client offset value s).receivedPassword = value := by
  simp [passwordWriteEvent, check_receivedPassword]

theorem passwordWriteEvent_receivedSSID (client : Connection) (offset : Int) (value : Bytes)
    (s : State) :
    (passwordWriteEvent client offset value s).receivedSSID = s.receivedSSID := by
  simp [passwordWriteEvent, check_receivedSSID]

theorem passwordWriteEvent_calls (client : Connection) (offset : Int) (value : Bytes)
    (s : State) : (passwordWriteEvent client offset value s).calls = s.calls := by
  simp [passwordWriteEvent, check_calls]

/-! ## The apply step -/

/-- The command line 130 builds. -/
theorem configureWiFi_ran (CombinedOutput : Cmd → Bytes × Option GoError)
    (ssid password : GoString) :
    (configureWiFi CombinedOutput ssid password).2
      = [exec.Command (lit "nmcli")
          [lit "device", lit "wifi", lit "connect", ssid, lit "password", password]] := by
  simp only [configureWiFi]
  generalize CombinedOutput _ = r
  rcases r with ⟨output, _ | err⟩ <;> rfl

theorem mainResume_of_not_woken (env : Env) (s : State) (h : s.phase ≠ .woken)
    (h' : s.phase ≠ .starting) : mainResume env s = s := by
  unfold mainResume
  split
  · contradiction
  · contradiction
  · rfl

theorem mainResume_of_starting (env : Env) (s : State) (hp : s.phase = .starting) :
    mainResume env s
      = { s with phase := (match must (lit "start advertising") env.advStart with
                           | some msg => .panicked msg
                           | none => .waiting) } := by
  simp only [mainResume, hp]
  split <;> rename_i h <;> simp [h]

theorem canReceive_eq_false_iff (ph : Phase) :
    ph.canReceive = false ↔ ph ≠ .starting ∧ ph ≠ .waiting := by
  cases ph <;> simp [Phase.canReceive]

theorem mainResume_of_stop_fails (env : Env) (s : State) (e : GoError)
    (hp : s.phase = .woken) (he : env.advStop = some e) :
    mainResume env s
      = { s with phase := .panicked (lit "failed to " ++ lit "stop advertising" ++ lit ": "
                            ++ e.Error) } := by
  simp [mainResume, hp, he, must]

theorem mainResume_calls_of_woken (env : Env) (s : State) (hp : s.phase = .woken)
    (he : env.advStop = none) :
    (mainResume env s).calls
        = s.calls ++ [(string s.receivedSSID, string s.receivedPassword)] ∧
      (mainResume env s).executed
        = s.executed ++ (configureWiFi env.CombinedOutput (string s.receivedSSID)
            (string s.receivedPassword)).2 ∧
      (mainResume env s).delivered = s.delivered ∧
      (mainResume env s).receivedSSID = s.receivedSSID ∧
      (mainResume env s).receivedPassword = s.receivedPassword ∧
      (mainResume env s).phase
        = (match (configureWiFi env.CombinedOutput (string s.receivedSSID)
            (string s.receivedPassword)).1 with
          | some err => .fatal err
          | none => .done) := by
  simp only [mainResume, hp, he, must]
  split <;> rename_i h <;> simp [h]

theorem mainResume_calls (env : Env) (s : State) :
    (mainResume env s).calls
      = if s.phase = .woken ∧ env.advStop = none then
          s.calls ++ [(string s.receivedSSID, string s.receivedPassword)]
        else s.calls := by
  by_cases hp : s.phase = .woken
  · cases he : env.advStop with
    | none => simp [hp, (mainResume_calls_of_woken env s hp he).1]
    | some e => simp [hp, mainResume_of_stop_fails env s e hp he]
  · by_cases hs : s.phase = .starting
    · simp [hp, mainResume_of_starting env s hs]
    · simp [hp, mainResume_of_not_woken env s hp hs]

theorem mainResume_store (env : Env) (s : State) :
    (mainResume env s).receivedSSID = s.receivedSSID ∧
      (mainResume env s).receivedPassword = s.receivedPassword ∧
      (mainResume env s).delivered = s.delivered := by
  by_cases hp : s.phase = .woken
  · cases he : env.advStop with
    | none =>
      obtain ⟨_, _, h3, h4, h5, _⟩ := mainResume_calls_of_woken env s hp he
      exact ⟨h4, h5, h3⟩
    | some e => simp [mainResume_of_stop_fails env s e hp he]
  · by_cases hs : s.phase = .starting
    · simp [mainResume_of_starting env s hs]
    · simp [mainResume_of_not_woken env s hp hs]

theorem mainResume_not_receiving (env : Env) (s : State)
    (h : s.phase.canReceive = false) : (mainResume env s).phase.canReceive = false := by
  have hs : s.phase ≠ .starting := ((canReceive_eq_false_iff _).mp h).1
  by_cases hp : s.phase = .woken
  · cases he : env.advStop with
    | none =>
      obtain ⟨_, _, _, _, _, h6⟩ := mainResume_calls_of_woken env s hp he
      rw [h6]
      split <;> rfl
    | some e => simp [mainResume_of_stop_fails env s e hp he, Phase.canReceive]
  · rw [mainResume_of_not_woken env s hp hs]; exact h

/-! ## Runs -/

theorem run_nil (env : Env) (s : State) : run env [] s = s := rfl

theorem run_cons (env : Env) (e : Event) (evs : List Event) (s : State) :
    run env (e :: evs) s = run env evs (step env s e) := rfl

theorem run_append (env : Env) (evs₁ evs₂ : List Event) (s : State) :
    run env (evs₁ ++ evs₂) s = run env evs₂ (run env evs₁ s) := by
  simp [run, List.foldl_append]

theorem step_of_exited (env : Env) (s : State) (e : Event) (h : s.phase.exited = true) :
    step env s e = s := by
  simp [step, h]

theorem step_write (env : Env) (s : State) (uuid : String) (client : Connection)
    (offset : Int) (value : Bytes) (h : s.phase.exited = false) :
    step env s (.write uuid client offset value)
      = writeCharacteristic uuid client offset value s := by
  simp [step, h]

theorem step_mainRuns (env : Env) (s : State) (h : s.phase.exited = false) :
    step env s .mainRuns = mainResume env s := by
  simp [step, h]

theorem exited_of_waiting {s : State} (h : s.phase = .waiting) : s.phase.exited = false := by
  rw [h]; rfl

/-- The check on a state whose main goroutine is parked. -/
theorem check_waiting (s : State) (hw : s.phase = .waiting) :
    (credentialsComplete s = false ∧ checkCredentialsComplete s = s) ∨
    (credentialsComplete s = true ∧ (checkCredentialsComplete s).phase = .woken ∧
      (checkCredentialsComplete s).delivered = s.delivered + 1) := by
  cases hc : credentialsComplete s with
  | false => left; exact ⟨rfl, check_of_not_complete s hc⟩
  | true => right; simp [check_of_complete_waiting s hc hw]

/-- One event on a parked main goroutine whose variables are not both non-empty: either
they are still not both non-empty and nothing but the variables changed, or they now are
and the signal was delivered. -/
theorem step_fresh (env : Env) (s : State) (e : Event) (hw : s.phase = .waiting)
    (hc : credentialsComplete s = false) :
    (credentialsComplete (step env s e) = false ∧ (step env s e).phase = .waiting ∧
      (step env s e).delivered = s.delivered ∧ (step env s e).calls = s.calls ∧
      (step env s e).executed = s.executed) ∨
    (credentialsComplete (step env s e) = true ∧ (step env s e).phase = .woken ∧
      (step env s e).delivered = s.delivered + 1) := by
  have hx := exited_of_waiting hw
  cases e with
  | mainRuns =>
    left
    rw [step_mainRuns env s hx,
      mainResume_of_not_woken env s (by rw [hw]; simp) (by rw [hw]; simp)]
    exact ⟨hc, hw, rfl, rfl, rfl⟩
  | write uuid client offset value =>
    rw [step_write env s uuid client offset value hx]
    rcases writeCharacteristic_cases uuid client offset value s with
      ⟨_, h⟩ | ⟨_, h⟩ | ⟨_, _, h⟩
    · rw [h]
      have hw' : ({ s with receivedSSID := value } : State).phase = .waiting := hw
      rcases check_waiting _ hw' with ⟨h1, h2⟩ | ⟨h1, h2, h3⟩
      · left
        unfold ssidWriteEvent
        rw [h2]
        exact ⟨h1, hw, rfl, rfl, rfl⟩
      · right
        simp only [ssidWriteEvent]
        exact ⟨by rw [credentialsComplete_check]; exact h1, h2, h3⟩
    · rw [h]
      have hw' : ({ s with receivedPassword := value } : State).phase = .waiting := hw
      rcases check_waiting _ hw' with ⟨h1, h2⟩ | ⟨h1, h2, h3⟩
      · left
        unfold passwordWriteEvent
        rw [h2]
        exact ⟨h1, hw, rfl, rfl, rfl⟩
      · right
        simp only [passwordWriteEvent]
        exact ⟨by rw [credentialsComplete_check]; exact h1, h2, h3⟩
    · left
      rw [h]
      exact ⟨hc, hw, rfl, rfl, rfl⟩

/-- What the check does to the count of received values: nothing at all, or one more
value received and the main goroutine woken. -/
theorem check_delivered (s : State) :
    checkCredentialsComplete s = s ∨
    ((checkCredentialsComplete s).delivered = s.delivered + 1 ∧
      (checkCredentialsComplete s).phase = .woken) := by
  by_cases hw : s.phase = .waiting
  · rcases check_waiting s hw with ⟨_, h⟩ | ⟨_, h2, h3⟩
    · exact Or.inl h
    · exact Or.inr ⟨h3, h2⟩
  · exact Or.inl (check_of_not_waiting s hw)

/-- Once the main goroutine can no longer receive, it never can again, and no further
value is received from the channel. -/
theorem step_not_receiving (env : Env) (s : State) (e : Event)
    (h : s.phase.canReceive = false) :
    (step env s e).phase.canReceive = false ∧ (step env s e).delivered = s.delivered := by
  have hnw : s.phase ≠ .waiting := ((canReceive_eq_false_iff _).mp h).2
  cases hx : s.phase.exited with
  | true => rw [step_of_exited env s e hx]; exact ⟨h, rfl⟩
  | false =>
    cases e with
    | mainRuns =>
      rw [step_mainRuns env s hx]
      exact ⟨mainResume_not_receiving env s h, (mainResume_store env s).2.2⟩
    | write uuid client offset value =>
      rw [step_write env s uuid client offset value hx]
      rcases writeCharacteristic_cases uuid client offset value s with
        ⟨_, h'⟩ | ⟨_, h'⟩ | ⟨_, _, h'⟩
      · rw [h']
        have hn : ({ s with receivedSSID := value } : State).phase ≠ .waiting := hnw
        unfold ssidWriteEvent
        rw [check_of_not_waiting _ hn]
        exact ⟨h, rfl⟩
      · rw [h']
        have hn : ({ s with receivedPassword := value } : State).phase ≠ .waiting := hnw
        unfold passwordWriteEvent
        rw [check_of_not_waiting _ hn]
        exact ⟨h, rfl⟩
      · rw [h']; exact ⟨h, rfl⟩

theorem run_not_receiving (env : Env) (evs : List Event) :
    ∀ s : State, s.phase.canReceive = false →
      (run env evs s).phase.canReceive = false ∧ (run env evs s).delivered = s.delivered := by
  induction evs with
  | nil => intro s h; exact ⟨h, rfl⟩
  | cons e evs ih =>
    intro s h
    obtain ⟨h1, h2⟩ := step_not_receiving env s e h
    obtain ⟨h3, h4⟩ := ih (step env s e) h1
    rw [run_cons]
    exact ⟨h3, h4.trans h2⟩

/-- One event delivers at most one value, and after delivering one the main goroutine
can no longer receive. -/
theorem step_delivered (env : Env) (s : State) (e : Event) :
    (step env s e).delivered = s.delivered ∨
    ((step env s e).delivered = s.delivered + 1 ∧
      (step env s e).phase.canReceive = false) := by
  cases hx : s.phase.exited with
  | true => rw [step_of_exited env s e hx]; exact Or.inl rfl
  | false =>
    cases e with
    | mainRuns =>
      rw [step_mainRuns env s hx]
      exact Or.inl (mainResume_store env s).2.2
    | write uuid client offset value =>
      rw [step_write env s uuid client offset value hx]
      rcases writeCharacteristic_cases uuid client offset value s with
        ⟨_, h'⟩ | ⟨_, h'⟩ | ⟨_, _, h'⟩
      · rw [h']
        unfold ssidWriteEvent
        rcases check_delivered { s with receivedSSID := value } with h | ⟨h1, h2⟩
        · rw [h]; exact Or.inl rfl
        · exact Or.inr ⟨h1, by rw [h2]; rfl⟩
      · rw [h']
        unfold passwordWriteEvent
        rcases check_delivered { s with receivedPassword := value } with h | ⟨h1, h2⟩
        · rw [h]; exact Or.inl rfl
        · exact Or.inr ⟨h1, by rw [h2]; rfl⟩
      · rw [h']; exact Or.inl rfl

/-- From every state and along every sequence of events, at most one further value is
received from the channel. -/
theorem run_delivered (env : Env) (evs : List Event) :
    ∀ s : State, (run env evs s).delivered = s.delivered ∨
      (run env evs s).delivered = s.delivered + 1 := by
  induction evs with
  | nil => intro s; exact Or.inl rfl
  | cons e evs ih =>
    intro s
    rw [run_cons]
    rcases step_delivered env s e with h | ⟨h1, h2⟩
    · rcases ih (step env s e) with h' | h'
      · exact Or.inl (h'.trans h)
      · exact Or.inr (by rw [h', h])
    · exact Or.inr (by rw [(run_not_receiving env evs _ h2).2, h1])

/-- When no write arrives first and `adv.Start()` succeeds, the main goroutine parks with
the store still empty. -/
theorem step_init_mainRuns (env : Env) (h : env.advStart = none) :
    step env init .mainRuns = parked := by
  simp [step, init, parked, Phase.exited, mainResume, must, h]

/-- A parked main goroutine that is scheduled again and again stays parked, whatever the
two variables hold. -/
theorem run_mainRuns_of_waiting (env : Env) (n : Nat) (s : State) (hw : s.phase = .waiting) :
    run env (List.replicate n .mainRuns) s = s := by
  induction n with
  | zero => rfl
  | succ n ih =>
    rw [List.replicate_succ, run_cons, step_mainRuns env s (exited_of_waiting hw),
      mainResume_of_not_woken env s (by rw [hw]; simp) (by rw [hw]; simp)]
    exact ih

/-- The run of a process that starts parked with the variables not both non-empty, cut
after `k` events: if the variables were both non-empty after some `j ≤ k` events, the
signal has been delivered once; if not, the main goroutine is still parked and nothing
has been applied. -/
theorem run_fresh (env : Env) (evs : List Event) :
    ∀ s : State, s.phase = .waiting → credentialsComplete s = false → ∀ k : Nat,
      ((∃ j, j ≤ k ∧ credentialsComplete (run env (evs.take j) s) = true) →
        (run env (evs.take k) s).phase ≠ .waiting ∧
        (run env (evs.take k) s).delivered = s.delivered + 1) ∧
      ((¬ ∃ j, j ≤ k ∧ credentialsComplete (run env (evs.take j) s) = true) →
        (run env (evs.take k) s).phase = .waiting ∧
        (run env (evs.take k) s).delivered = s.delivered ∧
        (run env (evs.take k) s).calls = s.calls ∧
        (run env (evs.take k) s).executed = s.executed) := by
  induction evs with
  | nil =>
    intro s hw hc k
    refine ⟨?_, ?_⟩
    · rintro ⟨j, _, hj⟩
      simp [run_nil, hc] at hj
    · intro _
      simp [run_nil, hw]
  | cons e evs ih =>
    intro s hw hc k
    cases k with
    | zero =>
      refine ⟨?_, ?_⟩
      · rintro ⟨j, hj0, hj⟩
        have : j = 0 := Nat.le_zero.mp hj0
        subst this
        simp [run_nil, hc] at hj
      · intro _
        simp [run_nil, hw]
    | succ k =>
      simp only [List.take_succ_cons, run_cons]
      rcases step_fresh env s e hw hc with ⟨h1, h2, h3, h4, h5⟩ | ⟨h1, h2, h3⟩
      · obtain ⟨ihA, ihB⟩ := ih (step env s e) h2 h1 k
        refine ⟨?_, ?_⟩
        · rintro ⟨j, hjk, hj⟩
          cases j with
          | zero => simp [run_nil, hc] at hj
          | succ j =>
            simp only [List.take_succ_cons, run_cons] at hj
            have := ihA ⟨j, Nat.le_of_succ_le_succ hjk, hj⟩
            rw [h3] at this
            exact this
        · intro hn
          have hn' : ¬ ∃ j, j ≤ k ∧
              credentialsComplete (run env (evs.take j) (step env s e)) = true := by
            rintro ⟨j, hjk, hj⟩
            exact hn ⟨j + 1, Nat.succ_le_succ hjk, by
              simpa only [List.take_succ_cons, run_cons] using hj⟩
          have := ihB hn'
          rw [h3, h4, h5] at this
          exact this
      · have hnr : (step env s e).phase.canReceive = false := by rw [h2]; rfl
        obtain ⟨r1, r2⟩ := run_not_receiving env (evs.take k) (step env s e) hnr
        refine ⟨?_, ?_⟩
        · intro _
          exact ⟨((canReceive_eq_false_iff _).mp r1).2, by rw [r2, h3]⟩
        · intro hn
          exact absurd ⟨1, Nat.succ_le_succ (Nat.zero_le k), by
            simpa [run_cons, run_nil] using h1⟩ hn

/-! ## How one event changes the two variables -/

theorem step_receivedPassword_of_not_password (env : Env) (s : State) (e : Event)
    (h : e = .mainRuns ∨
      ∃ client offset value, e = .write ssidCharacteristicUUIDString client offset value) :
    (step env s e).receivedPassword = s.receivedPassword := by
  cases hx : s.phase.exited with
  | true => rw [step_of_exited env s e hx]
  | false =>
    rcases h with h | ⟨client, offset, value, h⟩
    · subst h
      rw [step_mainRuns env s hx]
      exact (mainResume_store env s).2.1
    · subst h
      rw [step_write env s _ client offset value hx, writeCharacteristic_ssid]
      exact ssidWriteEvent_receivedPassword _ _ _ _

theorem step_receivedSSID_pos (env : Env) (s : State) (e : Event)
    (hs : 0 < len s.receivedSSID)
    (hv : ∀ client offset value,
      e = .write ssidCharacteristicUUIDString client offset value → 0 < len value) :
    0 < len (step env s e).receivedSSID := by
  cases hx : s.phase.exited with
  | true => rw [step_of_exited env s e hx]; exact hs
  | false =>
    cases e with
    | mainRuns =>
      rw [step_mainRuns env s hx, (mainResume_store env s).1]
      exact hs
    | write uuid client offset value =>
      rw [step_write env s uuid client offset value hx]
      rcases writeCharacteristic_cases uuid client offset value s with
        ⟨hu, h⟩ | ⟨_, h⟩ | ⟨_, _, h⟩
      · rw [h, ssidWriteEvent_receivedSSID]
        subst hu
        exact hv client offset value rfl
      · rw [h, passwordWriteEvent_receivedSSID]; exact hs
      · rw [h]; exact hs

theorem step_receivedPassword_pos (env : Env) (s : State) (e : Event)
    (hs : 0 < len s.receivedPassword)
    (hv : ∀ client offset value,
      e = .write passwordCharacteristicUUIDString client offset value → 0 < len value) :
    0 < len (step env s e).receivedPassword := by
  cases hx : s.phase.exited with
  | true => rw [step_of_exited env s e hx]; exact hs
  | false =>
    cases e with
    | mainRuns =>
      rw [step_mainRuns env s hx, (mainResume_store env s).2.1]
      exact hs
    | write uuid client offset value =>
      rw [step_write env s uuid client offset value hx]
      rcases writeCharacteristic_cases uuid client offset value s with
        ⟨_, h⟩ | ⟨hu, h⟩ | ⟨_, _, h⟩
      · rw [h, ssidWriteEvent_receivedPassword]; exact hs
      · rw [h, passwordWriteEvent_receivedPassword]
        subst hu
        exact hv client offset value rfl
      · rw [h]; exact hs

theorem run_receivedPassword_of_not_password (env : Env) (evs : List Event) :
    ∀ s : State,
      (∀ e ∈ evs, e = .mainRuns ∨
        ∃ client offset value, e = .write ssidCharacteristicUUIDString client offset value) →
      (run env evs s).receivedPassword = s.receivedPassword := by
  induction evs with
  | nil => intro s _; rfl
  | cons e evs ih =>
    intro s h
    rw [run_cons, ih (step env s e) (fun e' he' => h e' (List.mem_cons_of_mem _ he')),
      step_receivedPassword_of_not_password env s e (h e (List.mem_cons_self _ _))]

theorem run_receivedSSID_pos (env : Env) (evs : List Event) :
    ∀ s : State, 0 < len s.receivedSSID →
      (∀ client offset value,
        Event.write ssidCharacteristicUUIDString client offset value ∈ evs → 0 < len value) →
      0 < len (run env evs s).receivedSSID := by
  induction evs with
  | nil => intro s hs _; exact hs
  | cons e evs ih =>
    intro s hs hv
    rw [run_cons]
    refine ih (step env s e) (step_receivedSSID_pos env s e hs ?_) ?_
    · intro client offset value he
      exact hv client offset value (by rw [he]; exact List.mem_cons_self _ _)
    · intro client offset value he
      exact hv client offset value (List.mem_cons_of_mem _ he)

theorem run_receivedPassword_pos (env : Env) (evs : List Event) :
    ∀ s : State, 0 < len s.receivedPassword →
      (∀ client offset value,
        Event.write passwordCharacteristicUUIDString client offset value ∈ evs →
          0 < len value) →
      0 < len (run env evs s).receivedPassword := by
  induction evs with
  | nil => intro s hs _; exact hs
  | cons e evs ih =>
    intro s hs hv
    rw [run_cons]
    refine ih (step env s e) (step_receivedPassword_pos env s e hs ?_) ?_
    · intro client offset value he
      exact hv client offset value (by rw [he]; exact List.mem_cons_self _ _)
    · intro client offset value he
      exact hv client offset value (List.mem_cons_of_mem _ he)

/-! ## The claims -/

/-- C1: the condition tested by `checkCredentialsComplete` holds exactly when
`len(receivedSSID) > 0` and `len(receivedPassword) > 0`, that is when both variables are
non-nil and non-empty; it fails as soon as either variable is nil or holds an empty
payload; and on a parked main goroutine the check delivers the signal exactly when the
condition holds. -/
theorem C1_readiness_iff_both_nonempty (s : State) :
    (credentialsComplete s = true ↔ 0 < len s.receivedSSID ∧ 0 < len s.receivedPassword) ∧
    (credentialsComplete s = true ↔
      ∃ a b, s.receivedSSID = some a ∧ a ≠ [] ∧ s.receivedPassword = some b ∧ b ≠ []) ∧
    credentialsComplete { s with receivedSSID := none } = false ∧
    credentialsComplete { s with receivedSSID := some [] } = false ∧
    credentialsComplete { s with receivedPassword := none } = false ∧
    credentialsComplete { s with receivedPassword := some [] } = false ∧
    ((checkCredentialsComplete { s with phase := .waiting }).phase = .woken ↔
      (0 < len s.receivedSSID ∧ 0 < len s.receivedPassword)) := by
  refine ⟨credentialsComplete_iff s, ?_, ?_, ?_, ?_, ?_, ?_⟩
  · rw [credentialsComplete_iff, len_pos_iff, len_pos_iff]
    constructor
    · rintro ⟨⟨a, ha, ha'⟩, ⟨b, hb, hb'⟩⟩
      exact ⟨a, b, ha, ha', hb, hb'⟩
    · rintro ⟨a, b, ha, ha', hb, hb'⟩
      exact ⟨⟨a, ha, ha'⟩, ⟨b, hb, hb'⟩⟩
  · simp [credentialsComplete, len]
  · simp [credentialsComplete, len]
  · simp [credentialsComplete, len]
  · simp [credentialsComplete, len]
  · have hw : ({ s with phase := .waiting } : State).phase = .waiting := rfl
    rw [← credentialsComplete_iff s]
    have hcc : credentialsComplete { s with phase := .waiting } = credentialsComplete s := rfl
    rcases check_waiting _ hw with ⟨h1, h2⟩ | ⟨h1, h2, _⟩
    · rw [h2, ← hcc, h1]; simp
    · rw [h2, ← hcc, h1]; simp

/-- C2, as amended: for non-empty `s` and `p`, from the empty store with the main
goroutine parked, the two writes in either order, followed by the main goroutine running,
lead to the same state; the signal is delivered once, by the second write; and
`configureWiFi` is called once, with `(string(s), string(p))`, when `adv.Stop()`
succeeds, and not at all when it fails. -/
theorem C2_either_order_applies_once (env : Env) (s p : Bytes) (c₁ c₂ : Connection)
    (o₁ o₂ : Int) (hs : 0 < len s) (hp : 0 < len p) :
    run env [.write ssidCharacteristicUUIDString c₁ o₁ s,
        .write passwordCharacteristicUUIDString c₂ o₂ p, .mainRuns] parked
      = run env [.write passwordCharacteristicUUIDString c₂ o₂ p,
        .write ssidCharacteristicUUIDString c₁ o₁ s, .mainRuns] parked ∧
    (run env [.write ssidCharacteristicUUIDString c₁ o₁ s] parked).delivered = 0 ∧
    (run env [.write passwordCharacteristicUUIDString c₂ o₂ p] parked).delivered = 0 ∧
    (run env [.write ssidCharacteristicUUIDString c₁ o₁ s,
        .write passwordCharacteristicUUIDString c₂ o₂ p] parked).delivered = 1 ∧
    (run env [.write passwordCharacteristicUUIDString c₂ o₂ p,
        .write ssidCharacteristicUUIDString c₁ o₁ s] parked).delivered = 1 ∧
    (run env [.write ssidCharacteristicUUIDString c₁ o₁ s,
        .write passwordCharacteristicUUIDString c₂ o₂ p, .mainRuns] parked).delivered = 1 ∧
    (run env [.write ssidCharacteristicUUIDString c₁ o₁ s,
        .write passwordCharacteristicUUIDString c₂ o₂ p, .mainRuns] parked).calls
      = (if env.advStop = none then [(string s, string p)] else []) := by
  have e1 : run env [.write ssidCharacteristicUUIDString c₁ o₁ s] parked
      = { parked with receivedSSID := s } := by
    simp [run, step, parked, Phase.exited, writeCharacteristic_ssid, ssidWriteEvent,
      checkCredentialsComplete, credentialsComplete, len]
  have e2 : run env [.write passwordCharacteristicUUIDString c₂ o₂ p] parked
      = { parked with receivedPassword := p } := by
    simp [run, step, parked, Phase.exited, writeCharacteristic_password, passwordWriteEvent,
      checkCredentialsComplete, credentialsComplete, len]
  have e12 : run env [.write ssidCharacteristicUUIDString c₁ o₁ s,
        .write passwordCharacteristicUUIDString c₂ o₂ p] parked
      = { parked with receivedSSID := s, receivedPassword := p, phase := .woken,
                      delivered := 1 } := by
    rw [show [Event.write ssidCharacteristicUUIDString c₁ o₁ s,
        .write passwordCharacteristicUUIDString c₂ o₂ p]
        = [.write ssidCharacteristicUUIDString c₁ o₁ s]
          ++ [.write passwordCharacteristicUUIDString c₂ o₂ p] from rfl, run_append, e1]
    simp [run, step, parked, Phase.exited, writeCharacteristic_password, passwordWriteEvent,
      checkCredentialsComplete, credentialsComplete, trySend, hs, hp]
  have e21 : run env [.write passwordCharacteristicUUIDString c₂ o₂ p,
        .write ssidCharacteristicUUIDString c₁ o₁ s] parked
      = { parked with receivedSSID := s, receivedPassword := p, phase := .woken,
                      delivered := 1 } := by
    rw [show [Event.write passwordCharacteristicUUIDString c₂ o₂ p,
        .write ssidCharacteristicUUIDString c₁ o₁ s]
        = [.write passwordCharacteristicUUIDString c₂ o₂ p]
          ++ [.write ssidCharacteristicUUIDString c₁ o₁ s] from rfl, run_append, e2]
    simp [run, step, parked, Phase.exited, writeCharacteristic_ssid, ssidWriteEvent,
      checkCredentialsComplete, credentialsComplete, trySend, hs, hp]
  have e123 : run env [.write ssidCharacteristicUUIDString c₁ o₁ s,
        .write passwordCharacteristicUUIDString c₂ o₂ p, .mainRuns] parked
      = mainResume env { parked with receivedSSID := s, receivedPassword := p,
                                     phase := .woken, delivered := 1 } := by
    rw [show [Event.write ssidCharacteristicUUIDString c₁ o₁ s,
        .write passwordCharacteristicUUIDString c₂ o₂ p, .mainRuns]
        = [.write ssidCharacteristicUUIDString c₁ o₁ s,
          .write passwordCharacteristicUUIDString c₂ o₂ p] ++ [.mainRuns] from rfl,
      run_append, e12]
    simp [run, step, Phase.exited]
  have e213 : run env [.write passwordCharacteristicUUIDString c₂ o₂ p,
        .write ssidCharacteristicUUIDString c₁ o₁ s, .mainRuns] parked
      = mainResume env { parked with receivedSSID := s, receivedPassword := p,
                                     phase := .woken, delivered := 1 } := by
    rw [show [Event.write passwordCharacteristicUUIDString c₂ o₂ p,
        .write ssidCharacteristicUUIDString c₁ o₁ s, .mainRuns]
        = [.write passwordCharacteristicUUIDString c₂ o₂ p,
          .write ssidCharacteristicUUIDString c₁ o₁ s] ++ [.mainRuns] from rfl,
      run_append, e21]
    simp [run, step, Phase.exited]
  refine ⟨by rw [e123, e213], by rw [e1]; rfl, by rw [e2]; rfl, by rw [e12],
    by rw [e21], ?_, ?_⟩
  · rw [e123, (mainResume_store env _).2.2]
  · rw [e123, mainResume_calls]
    simp [parked]

/-- C3: two writes to the SSID characteristic leave the second payload in
`receivedSSID`, and when the main goroutine then runs, the call of `configureWiFi` it
makes (it makes one exactly when it has been woken and `adv.Stop()` succeeds) has
`string(b)` as its SSID argument; likewise for two writes to the password characteristic
and the password argument. -/
theorem C3_last_write_wins (env : Env) (s : State) (a b : Bytes) (c₁ c₂ : Connection)
    (o₁ o₂ : Int) :
    (writeCharacteristic ssidCharacteristicUUIDString c₂ o₂ b
      (writeCharacteristic ssidCharacteristicUUIDString c₁ o₁ a s)).receivedSSID = b ∧
    (mainResume env (writeCharacteristic ssidCharacteristicUUIDString c₂ o₂ b
      (writeCharacteristic ssidCharacteristicUUIDString c₁ o₁ a s))).calls
      = (if (writeCharacteristic ssidCharacteristicUUIDString c₂ o₂ b
            (writeCharacteristic ssidCharacteristicUUIDString c₁ o₁ a s)).phase = .woken
            ∧ env.advStop = none
          then s.calls ++ [(string b, string s.receivedPassword)] else s.calls) ∧
    (writeCharacteristic passwordCharacteristicUUIDString c₂ o₂ b
      (writeCharacteristic passwordCharacteristicUUIDString c₁ o₁ a s)).receivedPassword
      = b ∧
    (mainResume env (writeCharacteristic passwordCharacteristicUUIDString c₂ o₂ b
      (writeCharacteristic passwordCharacteristicUUIDString c₁ o₁ a s))).calls
      = (if (writeCharacteristic passwordCharacteristicUUIDString c₂ o₂ b
            (writeCharacteristic passwordCharacteristicUUIDString c₁ o₁ a s)).phase = .woken
            ∧ env.advStop = none
          then s.calls ++ [(string s.receivedSSID, string b)] else s.calls) := by
  refine ⟨?_, ?_, ?_, ?_⟩
  · rw [writeCharacteristic_ssid, ssidWriteEvent_receivedSSID]
  · rw [mainResume_calls]
    simp only [writeCharacteristic_ssid, ssidWriteEvent_receivedSSID,
      ssidWriteEvent_receivedPassword, ssidWriteEvent_calls]
  · rw [writeCharacteristic_password, passwordWriteEvent_receivedPassword]
  · rw [mainResume_calls]
    simp only [writeCharacteristic_password, passwordWriteEvent_receivedPassword,
      passwordWriteEvent_receivedSSID, passwordWriteEvent_calls]

/-- When the main goroutine is already parked on the channel with the store empty: along
every sequence of events at most one value is received; it has been received after `k`
events exactly when the two variables were both non-empty after some `j ≤ k` events, so
the wake happens at the first event that makes them so (the count goes from 0 to 1 at
that event), and until then the main goroutine stays parked; a call of
`checkCredentialsComplete` made when the main goroutine is not parked returns the state
unchanged. -/
theorem wake_at_first_ready_of_parked (env : Env) (evs : List Event) :
    (∀ k, (run env (evs.take k) parked).delivered ≤ 1) ∧
    (∀ k, (run env (evs.take k) parked).delivered = 1 ↔
      ∃ j, j ≤ k ∧ credentialsComplete (run env (evs.take j) parked) = true) ∧
    (∀ k, (run env (evs.take k) parked).phase = .waiting ↔
      ¬ ∃ j, j ≤ k ∧ credentialsComplete (run env (evs.take j) parked) = true) ∧
    (∀ j, credentialsComplete (run env (evs.take (j + 1)) parked) = true →
      (∀ i, i ≤ j → credentialsComplete (run env (evs.take i) parked) = false) →
      (run env (evs.take j) parked).delivered = 0 ∧
      (run env (evs.take (j + 1)) parked).delivered = 1) ∧
    (∀ s : State, s.phase ≠ .waiting → checkCredentialsComplete s = s) := by
  have key := fun k => run_fresh env evs parked rfl rfl k
  have hd : parked.delivered = 0 := rfl
  refine ⟨?_, ?_, ?_, ?_, fun s h => check_of_not_waiting s h⟩
  · intro k
    by_cases h : ∃ j, j ≤ k ∧ credentialsComplete (run env (evs.take j) parked) = true
    · rw [((key k).1 h).2, hd]
    · rw [((key k).2 h).2.1, hd]; exact Nat.zero_le 1
  · intro k
    constructor
    · intro h1
      by_contra h
      rw [((key k).2 h).2.1, hd] at h1
      exact absurd h1 (by decide)
    · intro h
      rw [((key k).1 h).2, hd]
  · intro k
    constructor
    · intro h1 h
      exact ((key k).1 h).1 h1
    · intro h
      exact ((key k).2 h).1
  · intro j hj hi
    have hn : ¬ ∃ i, i ≤ j ∧ credentialsComplete (run env (evs.take i) parked) = true := by
      rintro ⟨i, hij, hc⟩
      rw [hi i hij] at hc
      exact absurd hc (by decide)
    refine ⟨?_, ?_⟩
    · rw [((key j).2 hn).2.1, hd]
    · rw [((key (j + 1)).1 ⟨j + 1, Nat.le_refl _, hj⟩).2, hd]

/-- C5: `configureWiFi` returns an error exactly when `CombinedOutput` does; when
`CombinedOutput` returns output `o` and error `e`, the returned error has the message
`"nmcli command failed: " + string(o) + "\nError: " + e.Error()`, which contains
`string(o)`, and unwraps to `e`; when `CombinedOutput` returns no error, `configureWiFi`
returns nil. -/
theorem C5_configureWiFi_error (CombinedOutput : Cmd → Bytes × Option GoError)
    (ssid password : GoString) :
    ((configureWiFi CombinedOutput ssid password).1.isSome = true ↔
      (CombinedOutput (exec.Command (lit "nmcli")
        [lit "device", lit "wifi", lit "connect", ssid, lit "password", password])).2.isSome
          = true) ∧
    (∀ o e, CombinedOutput (exec.Command (lit "nmcli")
        [lit "device", lit "wifi", lit "connect", ssid, lit "password", password])
          = (o, some e) →
      ∃ err, (configureWiFi CombinedOutput ssid password).1 = some err ∧
        err.Error = lit "nmcli command failed: " ++ string o ++ lit "\nError: " ++ e.Error ∧
        string o <:+: err.Error ∧
        err.Unwrap = some e) ∧
    (∀ o, CombinedOutput (exec.Command (lit "nmcli")
        [lit "device", lit "wifi", lit "connect", ssid, lit "password", password])
          = (o, none) →
      (configureWiFi CombinedOutput ssid password).1 = none) := by
  simp only [configureWiFi]
  generalize CombinedOutput _ = r
  rcases r with ⟨output, _ | err⟩
  · refine ⟨by simp, ?_, ?_⟩
    · intro o e h; simp at h
    · intro o _; rfl
  · refine ⟨by simp, ?_, ?_⟩
    · intro o e h
      simp only [Prod.mk.injEq, Option.some.injEq] at h
      obtain ⟨rfl, rfl⟩ := h
      refine ⟨nmcliError output err, rfl, rfl, ?_, rfl⟩
      exact ⟨lit "nmcli command failed: ", lit "\nError: " ++ err.Error, by
        simp [nmcliError, GoError.Error]⟩
    · intro o h; simp at h

/-- C6: from the empty store with the main goroutine parked, a sequence of events along
which the two variables are never both non-empty, and in particular every sequence whose
writes all go to the SSID characteristic, delivers no signal, leaves the main goroutine
parked and makes no call of `configureWiFi`. -/
theorem C6_incomplete_stays_blocked (env : Env) (evs : List Event) :
    ((∀ k, credentialsComplete (run env (evs.take k) parked) = false) →
      (run env evs parked).delivered = 0 ∧ (run env evs parked).phase = .waiting ∧
      (run env evs parked).calls = [] ∧ (run env evs parked).executed = []) ∧
    ((∀ e ∈ evs, e = .mainRuns ∨
        ∃ client offset value, e = .write ssidCharacteristicUUIDString client offset value) →
      (run env evs parked).delivered = 0 ∧ (run env evs parked).phase = .waiting ∧
      (run env evs parked).calls = [] ∧ (run env evs parked).executed = []) := by
  have main : (∀ k, credentialsComplete (run env (evs.take k) parked) = false) →
      (run env evs parked).delivered = 0 ∧ (run env evs parked).phase = .waiting ∧
      (run env evs parked).calls = [] ∧ (run env evs parked).executed = [] := by
    intro h
    have hn : ¬ ∃ j, j ≤ evs.length ∧
        credentialsComplete (run env (evs.take j) parked) = true := by
      rintro ⟨j, _, hj⟩
      rw [h j] at hj
      exact absurd hj (by decide)
    obtain ⟨h1, h2, h3, h4⟩ := (run_fresh env evs parked rfl rfl evs.length).2 hn
    rw [List.take_length] at h1 h2 h3 h4
    exact ⟨h2, h1, h3, h4⟩
  refine ⟨main, ?_⟩
  intro h
  apply main
  intro k
  have hp : (run env (evs.take k) parked).receivedPassword = none :=
    run_receivedPassword_of_not_password env (evs.take k) parked
      (fun e he => h e (List.mem_of_mem_take he))
  simp [credentialsComplete, hp, len]

/-- C7, as amended: a variable that is non-empty is still non-empty after every later
sequence of events in which each write to its own characteristic carries a non-empty
payload; a write to its own characteristic leaves it with the length of the payload, so
an empty payload leaves it empty. -/
theorem C7_nonempty_kept_by_nonempty_writes (env : Env) (evs : List Event) (s : State) :
    (0 < len s.receivedSSID →
      (∀ client offset value,
        Event.write ssidCharacteristicUUIDString client offset value ∈ evs → 0 < len value) →
      0 < len (run env evs s).receivedSSID) ∧
    (0 < len s.receivedPassword →
      (∀ client offset value,
        Event.write passwordCharacteristicUUIDString client offset value ∈ evs →
          0 < len value) →
      0 < len (run env evs s).receivedPassword) ∧
    (∀ client offset value,
      len (writeCharacteristic ssidCharacteristicUUIDString client offset value
        s).receivedSSID = len value) ∧
    (∀ client offset value,
      len (writeCharacteristic passwordCharacteristicUUIDString client offset value
        s).receivedPassword = len value) := by
  refine ⟨run_receivedSSID_pos env evs s, run_receivedPassword_pos env evs s, ?_, ?_⟩
  · intro client offset value
    rw [writeCharacteristic_ssid, ssidWriteEvent_receivedSSID]
  · intro client offset value
    rw [writeCharacteristic_password, passwordWriteEvent_receivedPassword]

/-- C8: `configureWiFi` calls `CombinedOutput` on one command, the program `nmcli` with
the arguments `device wifi connect <ssid> password <password>`, the two strings being
single arguments passed unchanged; and the strings the main goroutine passes are the bytes
of the two variables, unchanged. -/
theorem C8_nmcli_argument_list (env : Env) (s : State) (ssid password : GoString)
    (a b : List Byte) :
    (configureWiFi env.CombinedOutput ssid password).2
      = [Cmd.mk (lit "nmcli")
          [lit "nmcli", lit "device", lit "wifi", lit "connect", ssid, lit "password",
            password]] ∧
    string (some a) = a ∧
    (mainResume { env with advStop := none }
        { s with phase := .woken, receivedSSID := some a, receivedPassword := some b }).executed
      = s.executed ++ [Cmd.mk (lit "nmcli")
          [lit "nmcli", lit "device", lit "wifi", lit "connect", a, lit "password", b]] := by
  refine ⟨configureWiFi_ran _ _ _, rfl, ?_⟩
  rw [(mainResume_calls_of_woken { env with advStop := none }
    { s with phase := .woken, receivedSSID := some a, receivedPassword := some b }
    rfl rfl).2.1, configureWiFi_ran]
  rfl

/-- C9: a write to the SSID characteristic stores exactly its payload in `receivedSSID`
and leaves `receivedPassword` as it was; a write to the password characteristic stores
exactly its payload in `receivedPassword` and leaves `receivedSSID` as it was; the
connection and the offset make no difference to the resulting state. -/
theorem C9_write_routed_to_own_field (s : State) (v : Bytes) (client client' : Connection)
    (offset offset' : Int) :
    (writeCharacteristic ssidCharacteristicUUIDString client offset v s).receivedSSID = v ∧
    (writeCharacteristic ssidCharacteristicUUIDString client offset v s).receivedPassword
      = s.receivedPassword ∧
    (writeCharacteristic passwordCharacteristicUUIDString client offset v s).receivedPassword
      = v ∧
    (writeCharacteristic passwordCharacteristicUUIDString client offset v s).receivedSSID
      = s.receivedSSID ∧
    writeCharacteristic ssidCharacteristicUUIDString client offset v s
      = writeCharacteristic ssidCharacteristicUUIDString client' offset' v s ∧
    writeCharacteristic passwordCharacteristicUUIDString client offset v s
      = writeCharacteristic passwordCharacteristicUUIDString client' offset' v s := by
  simp only [writeCharacteristic_ssid, writeCharacteristic_password]
  exact ⟨ssidWriteEvent_receivedSSID _ _ _ _, ssidWriteEvent_receivedPassword _ _ _ _,
    passwordWriteEvent_receivedPassword _ _ _ _, passwordWriteEvent_receivedSSID _ _ _ _,
    rfl, rfl⟩

/-! ## Concrete runs -/

/-- C2, counterexample to the claim as stated: with non-empty `"HomeNet"` and `"s3cr3t!"`
written in this order and the main goroutine woken, a failing `adv.Stop()` makes `must`
panic, and `configureWiFi` is not called at all. -/
theorem C2_counterexample_stop_fails :
    0 < len homeNet ∧ 0 < len s3cr3t ∧
    (run envStopFails [.write ssidCharacteristicUUIDString 0 0 homeNet,
        .write passwordCharacteristicUUIDString 0 0 s3cr3t, .mainRuns] parked).delivered = 1 ∧
    (run envStopFails [.write ssidCharacteristicUUIDString 0 0 homeNet,
        .write passwordCharacteristicUUIDString 0 0 s3cr3t, .mainRuns] parked).calls = [] ∧
    (run envStopFails [.write ssidCharacteristicUUIDString 0 0 homeNet,
        .write passwordCharacteristicUUIDString 0 0 s3cr3t, .mainRuns] parked).phase
      = .panicked (lit "failed to stop advertising: not advertising") := by
  decide

/-- C2, witness: scenarios 1 and 2 with `"HomeNet"` and `"s3cr3t!"` when everything
succeeds. -/
theorem C2_either_order_applies_once_witness :
    0 < len homeNet ∧ 0 < len s3cr3t ∧
    run envOk [.write ssidCharacteristicUUIDString 0 0 homeNet,
        .write passwordCharacteristicUUIDString 0 0 s3cr3t, .mainRuns] parked
      = run envOk [.write passwordCharacteristicUUIDString 0 0 s3cr3t,
        .write ssidCharacteristicUUIDString 0 0 homeNet, .mainRuns] parked ∧
    (run envOk [.write ssidCharacteristicUUIDString 0 0 homeNet,
        .write passwordCharacteristicUUIDString 0 0 s3cr3t, .mainRuns] parked).delivered = 1 ∧
    (run envOk [.write ssidCharacteristicUUIDString 0 0 homeNet,
        .write passwordCharacteristicUUIDString 0 0 s3cr3t, .mainRuns] parked).calls
      = [(lit "HomeNet", lit "s3cr3t!")] :=
  have h := C2_either_order_applies_once envOk homeNet s3cr3t 0 0 0 0 (by decide) (by decide)
  ⟨by decide, by decide, h.1, h.2.2.2.2.2.1, h.2.2.2.2.2.2⟩

/-- C4, evaluated at a failing schedule: both credentials are written after the callbacks
are registered and before the main goroutine reaches the receive.  The second write makes
the two variables non-empty, but `checkCredentialsComplete` finds no receiver and takes the
`default` branch, so no value is delivered; the main goroutine then parks and, however
often it is scheduled, stays parked with no call of `configureWiFi`.  The wake comes only
with a later, redundant write, which is not the first write after which both variables
are non-empty.  That at most one value is ever delivered does hold from the start. -/
theorem C4_signal_dropped_before_park :
    credentialsComplete (run envOk [.write ssidCharacteristicUUIDString 0 0 homeNet] init)
      = false ∧
    credentialsComplete (run envOk [.write ssidCharacteristicUUIDString 0 0 homeNet,
        .write passwordCharacteristicUUIDString 0 0 s3cr3t] init) = true ∧
    (run envOk [.write ssidCharacteristicUUIDString 0 0 homeNet,
        .write passwordCharacteristicUUIDString 0 0 s3cr3t] init).delivered = 0 ∧
    (run envOk [.write ssidCharacteristicUUIDString 0 0 homeNet,
        .write passwordCharacteristicUUIDString 0 0 s3cr3t, .mainRuns] init)
      = { receivedSSID := homeNet, receivedPassword := s3cr3t, phase := .waiting,
          delivered := 0, calls := [], executed := [] } ∧
    (∀ n, run envOk ([.write ssidCharacteristicUUIDString 0 0 homeNet,
          .write passwordCharacteristicUUIDString 0 0 s3cr3t, .mainRuns]
          ++ List.replicate n .mainRuns) init
      = { receivedSSID := homeNet, receivedPassword := s3cr3t, phase := .waiting,
          delivered := 0, calls := [], executed := [] }) ∧
    (run envOk [.write ssidCharacteristicUUIDString 0 0 homeNet,
        .write passwordCharacteristicUUIDString 0 0 s3cr3t, .mainRuns,
        .write passwordCharacteristicUUIDString 0 0 s3cr3t] init).delivered = 1 ∧
    (run envOk [.write ssidCharacteristicUUIDString 0 0 homeNet,
        .write passwordCharacteristicUUIDString 0 0 s3cr3t, .mainRuns,
        .write passwordCharacteristicUUIDString 0 0 s3cr3t] init).phase = .woken ∧
    (∀ (env : Env) (evs : List Event), (run env evs init).delivered ≤ 1) := by
  have h3 : run envOk [.write ssidCharacteristicUUIDString 0 0 homeNet,
        .write passwordCharacteristicUUIDString 0 0 s3cr3t, .mainRuns] init
      = { receivedSSID := homeNet, receivedPassword := s3cr3t, phase := .waiting,
          delivered := 0, calls := [], executed := [] } := by decide
  refine ⟨by decide, by decide, by decide, h3, ?_, by decide, by decide, ?_⟩
  · intro n
    rw [run_append, h3]
    exact run_mainRuns_of_waiting envOk n _ rfl
  · intro env evs
    rcases run_delivered env evs init with h | h
    · rw [h]; exact Nat.zero_le 1
    · rw [h]; exact Nat.le_refl 1

/-- C5, witness: scenario 3, `nmcli` failing with `"Secrets were required"`. -/
theorem C5_configureWiFi_error_witness :
    envSecrets.CombinedOutput (exec.Command (lit "nmcli")
        [lit "device", lit "wifi", lit "connect", lit "HomeNet", lit "password",
          lit "s3cr3t!"])
      = (some (lit "Error: Secrets were required"), some (.external (lit "exit status 4"))) ∧
    ∃ err, (configureWiFi envSecrets.CombinedOutput (lit "HomeNet") (lit "s3cr3t!")).1
        = some err ∧
      err.Error = lit "nmcli command failed: "
        ++ string (some (lit "Error: Secrets were required")) ++ lit "\nError: "
        ++ (GoError.external (lit "exit status 4")).Error ∧
      string (some (lit "Error: Secrets were required")) <:+: err.Error ∧
      err.Unwrap = some (.external (lit "exit status 4")) :=
  ⟨rfl, (C5_configureWiFi_error envSecrets.CombinedOutput (lit "HomeNet")
    (lit "s3cr3t!")).2.1 _ _ rfl⟩

/-- C6, witness: scenario 4, only the SSID characteristic is written, twice, the main
goroutine being scheduled in between. -/
theorem C6_incomplete_stays_blocked_witness :
    (∀ e ∈ [Event.write ssidCharacteristicUUIDString 0 0 homeNet, .mainRuns,
          .write ssidCharacteristicUUIDString 1 0 (some (lit "Guest"))],
        e = .mainRuns ∨
        ∃ client offset value, e = .write ssidCharacteristicUUIDString client offset value) ∧
    (run envOk [.write ssidCharacteristicUUIDString 0 0 homeNet, .mainRuns,
        .write ssidCharacteristicUUIDString 1 0 (some (lit "Guest"))] parked).delivered = 0 ∧
    (run envOk [.write ssidCharacteristicUUIDString 0 0 homeNet, .mainRuns,
        .write ssidCharacteristicUUIDString 1 0 (some (lit "Guest"))] parked).phase
      = .waiting ∧
    (run envOk [.write ssidCharacteristicUUIDString 0 0 homeNet, .mainRuns,
        .write ssidCharacteristicUUIDString 1 0 (some (lit "Guest"))] parked).calls = [] ∧
    (run envOk [.write ssidCharacteristicUUIDString 0 0 homeNet, .mainRuns,
        .write ssidCharacteristicUUIDString 1 0 (some (lit "Guest"))] parked).executed = [] :=
  have hyp : ∀ e ∈ [Event.write ssidCharacteristicUUIDString 0 0 homeNet, .mainRuns,
        .write ssidCharacteristicUUIDString 1 0 (some (lit "Guest"))],
      e = .mainRuns ∨
      ∃ client offset value, e = .write ssidCharacteristicUUIDString client offset value := by
    intro e he
    simp only [List.mem_cons, List.mem_singleton, List.not_mem_nil, or_false] at he
    rcases he with rfl | rfl | rfl
    · exact Or.inr ⟨_, _, _, rfl⟩
    · exact Or.inl rfl
    · exact Or.inr ⟨_, _, _, rfl⟩
  ⟨hyp, (C6_incomplete_stays_blocked envOk _).2 hyp⟩

/-- C7, counterexample to the claim as stated: the stored SSID is non-empty after
`"HomeNet"` has been written and empty again after a later write with an empty payload;
the same happens to the password. -/
theorem C7_counterexample_empty_write_clears :
    0 < len (run envOk [.write ssidCharacteristicUUIDString 0 0 homeNet] parked).receivedSSID ∧
    len (run envOk [.write ssidCharacteristicUUIDString 0 0 homeNet,
        .write ssidCharacteristicUUIDString 0 0 (some [])] parked).receivedSSID = 0 ∧
    0 < len (run envOk [.write passwordCharacteristicUUIDString 0 0 s3cr3t]
        parked).receivedPassword ∧
    len (run envOk [.write passwordCharacteristicUUIDString 0 0 s3cr3t,
        .write passwordCharacteristicUUIDString 0 0 none] parked).receivedPassword = 0 := by
  decide

/-- C7, witness: the SSID `"HomeNet"` survives a password write, a second non-empty SSID
write and the main goroutine running. -/
theorem C7_nonempty_kept_by_nonempty_writes_witness :
    0 < len (run envOk [.write ssidCharacteristicUUIDString 0 0 homeNet] parked).receivedSSID ∧
    (∀ client offset value,
      Event.write ssidCharacteristicUUIDString client offset value
        ∈ [Event.write passwordCharacteristicUUIDString 0 0 s3cr3t,
            .write ssidCharacteristicUUIDString 0 0 (some (lit "Guest")), .mainRuns] →
      0 < len value) ∧
    0 < len (run envOk [.write passwordCharacteristicUUIDString 0 0 s3cr3t,
        .write ssidCharacteristicUUIDString 0 0 (some (lit "Guest")), .mainRuns]
      (run envOk [.write ssidCharacteristicUUIDString 0 0 homeNet] parked)).receivedSSID :=
  have hs : 0 < len (run envOk [.write ssidCharacteristicUUIDString 0 0 homeNet]
      parked).receivedSSID := by decide
  have hv : ∀ client offset value,
      Event.write ssidCharacteristicUUIDString client offset value
        ∈ [Event.write passwordCharacteristicUUIDString 0 0 s3cr3t,
            .write ssidCharacteristicUUIDString 0 0 (some (lit "Guest")), .mainRuns] →
      0 < len value := by
    intro client offset value h
    simp only [List.mem_cons, List.mem_singleton, List.not_mem_nil, or_false,
      Event.write.injEq, reduceCtorEq] at h
    rcases h with ⟨_, _, _, rfl⟩ | ⟨_, _, _, rfl⟩
    · decide
    · decide
  ⟨hs, hv, (C7_nonempty_kept_by_nonempty_writes envOk _ _).1 hs hv⟩

end WifiProvisioner
